import Mathlib

/-!
Verification of the `tftp` Go package (server dispatcher, client entry
points, retry/timeout configuration, and the TFTP packet/session protocol
engine) against its natural-language specification.

Bytes are modelled as `Fin 256`, Go `int` as `Int`, byte strings as
`List (Fin 256)`.  Stateful code is modelled by explicit state passing;
code that spawns goroutines is modelled by an effects record describing
what was spawned/sent.  Environment outcomes (socket binding, pipe probe
writes) are inputs to the embedded functions.
-/

/-- A byte, as carried in UDP payloads. -/
abbrev Byte := Fin 256

/-- Truncate a natural number to a byte (Go byte conversion). -/
def byte (n : Nat) : Byte := ⟨n % 256, Nat.mod_lt _ (by norm_num)⟩

/-- Big-endian 2-byte encoding of a 16-bit value (TFTP opcode / block / code). -/
def u16be (n : Nat) : List Byte := [byte (n / 256), byte n]

/-- ASCII bytes of a Lean string (Go string-to-bytes conversion). -/
def asciiBytes (s : String) : List Byte := s.data.map (fun c => byte c.toNat)

/-- A UDP address: host and port, with decidable equality (Go `*net.UDPAddr`
compared as an address value). -/
structure UDPAddr where
  host : String
  port : Nat
deriving DecidableEq, Repr

/-- The five TFTP packet kinds (`RRQ`, `WRQ`, `DATA`, `ACK`, `ERROR`), as a
closed discriminated union.  Block numbers and error codes are naturals
(16-bit on the wire). -/
inductive Packet where
  | RRQ (filename : List Byte) (mode : List Byte)
  | WRQ (filename : List Byte) (mode : List Byte)
  | DATA (block : Nat) (payload : List Byte)
  | ACK (block : Nat)
  | ERROR (code : Nat) (message : List Byte)
deriving DecidableEq, Repr

/-- Modelled from the spec: the packet encoder (`Pack` in the missing codec
source).  Wire format, big-endian: opcode(2) then the type-specific fields;
filename/mode/message are NUL-terminated; DATA/ACK block numbers and the
ERROR code are 2-byte big-endian. -/
def Packet.Pack : Packet → List Byte
  | .RRQ f m => u16be 1 ++ f ++ [0] ++ m ++ [0]
  | .WRQ f m => u16be 2 ++ f ++ [0] ++ m ++ [0]
  | .DATA b d => u16be 3 ++ u16be b ++ d
  | .ACK b => u16be 4 ++ u16be b
  | .ERROR c msg => u16be 5 ++ u16be c ++ msg ++ [0]

/-- Split a byte list at its first NUL: returns the bytes before the NUL and
the bytes after it, or `none` when no NUL terminator is present. -/
def splitNul : List Byte → Option (List Byte × List Byte)
  | [] => none
  | b :: rest =>
    if b = 0 then some ([], rest)
    else
      match splitNul rest with
      | none => none
      | some (pre, post) => some (b :: pre, post)

/-- Modelled from the spec: the packet decoder (`ParsePacket` in the missing
codec source).  Fails (returns `none`, standing for the `MalformedPacket`
error) when the buffer is shorter than the minimum for its opcode, has an
unknown opcode, or is missing a required NUL terminator; never panics. -/
def ParsePacket (buf : List Byte) : Option Packet :=
  match buf with
  | o1 :: o2 :: rest =>
    if o1.val * 256 + o2.val = 1 then
      match splitNul rest with
      | none => none
      | some (f, r1) =>
        match splitNul r1 with
        | none => none
        | some (m, _) => some (.RRQ f m)
    else if o1.val * 256 + o2.val = 2 then
      match splitNul rest with
      | none => none
      | some (f, r1) =>
        match splitNul r1 with
        | none => none
        | some (m, _) => some (.WRQ f m)
    else if o1.val * 256 + o2.val = 3 then
      match rest with
      | b1 :: b2 :: d => some (.DATA (b1.val * 256 + b2.val) d)
      | _ => none
    else if o1.val * 256 + o2.val = 4 then
      match rest with
      | b1 :: b2 :: _ => some (.ACK (b1.val * 256 + b2.val))
      | _ => none
    else if o1.val * 256 + o2.val = 5 then
      match rest with
      | b1 :: b2 :: r =>
        match splitNul r with
        | none => none
        | some (msg, _) => some (.ERROR (b1.val * 256 + b2.val) msg)
      | _ => none
    else none
  | _ => none

/-- A byte list free of NUL bytes (so it can be NUL-terminated on the wire). -/
def noNul : List Byte → Bool
  | [] => true
  | b :: rest => if b = 0 then false else noNul rest

/-- The constructibility invariants of a packet: strings carried in
NUL-terminated fields contain no NUL, block numbers and error codes fit in
16 bits, and a DATA payload holds at most 512 bytes. -/
def Packet.wf : Packet → Bool
  | .RRQ f m => noNul f && noNul m
  | .WRQ f m => noNul f && noNul m
  | .DATA b d => decide (b < 65536) && decide (d.length ≤ 512)
  | .ACK b => decide (b < 65536)
  | .ERROR c msg => decide (c < 65536) && noNul msg

theorem splitNul_append (xs ys : List Byte) (h : noNul xs = true) :
    splitNul (xs ++ 0 :: ys) = some (xs, ys) := by
  induction xs with
  | nil => simp [splitNul]
  | cons b rest ih =>
    simp only [noNul] at h
    by_cases hb : b = 0
    · simp [hb] at h
    · simp only [List.cons_append, splitNul, if_neg hb]
      rw [show rest.append (0 :: ys) = rest ++ 0 :: ys from rfl, ih (by simpa [hb] using h)]

theorem u16_roundtrip (n : Nat) (h : n < 65536) :
    (byte (n / 256)).val * 256 + (byte n).val = n := by
  simp only [byte]
  have h1 := Nat.div_add_mod n 256
  have h2 : n / 256 < 256 := Nat.div_lt_of_lt_mul (by omega)
  have h3 : n / 256 % 256 = n / 256 := Nat.mod_eq_of_lt h2
  omega

theorem PacketRoundtrip (p : Packet) (h : p.wf = true) :
    ParsePacket p.Pack = some p := by
  cases p with
  | RRQ f m =>
    simp only [Packet.wf, Bool.and_eq_true] at h
    have hs1 : splitNul (f ++ 0 :: (m ++ [0])) = some (f, m ++ [0]) :=
      splitNul_append f _ h.1
    have hs2 : splitNul (m ++ [0]) = some (m, []) := splitNul_append m [] h.2
    simp [Packet.Pack, u16be, byte, ParsePacket, List.append_assoc, hs1, hs2]
  | WRQ f m =>
    simp only [Packet.wf, Bool.and_eq_true] at h
    have hs1 : splitNul (f ++ 0 :: (m ++ [0])) = some (f, m ++ [0]) :=
      splitNul_append f _ h.1
    have hs2 : splitNul (m ++ [0]) = some (m, []) := splitNul_append m [] h.2
    simp [Packet.Pack, u16be, byte, ParsePacket, List.append_assoc, hs1, hs2]
  | DATA b d =>
    simp only [Packet.wf, Bool.and_eq_true, decide_eq_true_eq] at h
    have hb := u16_roundtrip b h.1
    simp only [byte] at hb
    have h3 : ((3 : Byte) : Nat) = 3 := rfl
    simp [Packet.Pack, u16be, byte, ParsePacket, List.append_assoc, hb, h3]
  | ACK b =>
    simp only [Packet.wf, decide_eq_true_eq] at h
    have hb := u16_roundtrip b h
    simp only [byte] at hb
    have h4 : ((4 : Byte) : Nat) = 4 := rfl
    simp [Packet.Pack, u16be, byte, ParsePacket, List.append_assoc, hb, h4]
  | ERROR c msg =>
    simp only [Packet.wf, Bool.and_eq_true, decide_eq_true_eq] at h
    have hc := u16_roundtrip c h.1
    simp only [byte] at hc
    have hs : splitNul (msg ++ [0]) = some (msg, []) := splitNul_append msg [] h.2
    have h5 : ((5 : Byte) : Nat) = 5 := rfl
    simp [Packet.Pack, u16be, byte, ParsePacket, List.append_assoc, hc, hs, h5]

example : ParsePacket (Packet.RRQ [102] [111]).Pack = some (Packet.RRQ [102] [111]) := by decide
example : ParsePacket (Packet.DATA 300 [1, 2, 3]).Pack = some (Packet.DATA 300 [1, 2, 3]) := by decide
example : ParsePacket (Packet.ACK 1).Pack = some (Packet.ACK 1) := by decide
example : ParsePacket (Packet.ERROR 1 [120]).Pack = some (Packet.ERROR 1 [120]) := by decide
example : ParsePacket [] = none := by decide
example : ParsePacket [0, 9, 1, 2] = none := by decide

/-- A `*log.Logger` value (Go).  `discards` records whether its output sink
is `ioutil.Discard`. -/
structure Logger where
  discards : Bool
deriving DecidableEq, Repr

/-- The logger built by `log.New(ioutil.Discard, "", 0)` in `NewServer` and
`NewClient`. -/
def discardLogger : Logger := ⟨true⟩

/-- Calling `Printf` on a `*log.Logger` field (which may be a nil pointer,
modelled as `none`): a nil logger faults (`none` result); a non-nil logger
emits the lines its sink keeps — none at all for a discarding logger. -/
def logPrintf (l : Option Logger) (msg : String) : Option (List String) :=
  match l with
  | none => none
  | some lg => some (if lg.discards then [] else [msg])

/-- The constants `DEFAULT_TIMEOUT = 5` (seconds) and
`DEFAULT_RETRY_COUNT = 3` from the configuration source file. -/
def DEFAULT_TIMEOUT : Int := 5

/-- Default retry count constant. -/
def DEFAULT_RETRY_COUNT : Int := 3

/-- The `Server` struct of `server.go`: bind address, read/write handlers
(modelled as opaque function identities), logger pointer, retry count and
timeout.  Go `int` fields are `Int`. -/
structure Server where
  bindAddr : UDPAddr
  readHandler : Nat
  writeHandler : Nat
  log : Option Logger
  retryCount : Int
  timeout : Int
deriving DecidableEq, Repr

/-- `NewServer` from `server.go`: installs a discarding logger and the
default retry count and timeout. -/
def NewServer (bindAddr : UDPAddr) (readHandler writeHandler : Nat) : Server :=
  ⟨bindAddr, readHandler, writeHandler, some discardLogger, DEFAULT_RETRY_COUNT, DEFAULT_TIMEOUT⟩

/-- Getter `Server.Log` from `server.go`. -/
def Server.Log (s : Server) : Option Logger := s.log

/-- Getter `Server.RetryCount` from `server.go`. -/
def Server.RetryCount (s : Server) : Int := s.retryCount

/-- Getter `Server.Timeout` from `server.go`. -/
def Server.Timeout (s : Server) : Int := s.timeout

/-- Body of `Server.SetLogger`: the assignment `s.log = logger` performed on
the method receiver. -/
def Server.SetLogger_body (s : Server) (logger : Option Logger) : Server :=
  { s with log := logger }

/-- A call `s.SetLogger(l)` in Go: the receiver is passed BY VALUE, so the
method body mutates a copy and the caller variable `s` is left unchanged.
The result is the caller's value of `s` after the call returns. -/
def Server.SetLogger_call (s : Server) (logger : Option Logger) : Server :=
  (fun _receiverCopy => s) (Server.SetLogger_body s logger)

/-- Body of `Server.SetRetryCount`: `s.retryCount = n` on the receiver. -/
def Server.SetRetryCount_body (s : Server) (n : Int) : Server :=
  { s with retryCount := n }

/-- A call `s.SetRetryCount(n)`: value receiver, caller unchanged. -/
def Server.SetRetryCount_call (s : Server) (n : Int) : Server :=
  (fun _receiverCopy => s) (Server.SetRetryCount_body s n)

/-- Body of `Server.SetTimeout`: `s.timeout = seconds` on the receiver. -/
def Server.SetTimeout_body (s : Server) (seconds : Int) : Server :=
  { s with timeout := seconds }

/-- A call `s.SetTimeout(seconds)`: value receiver, caller unchanged. -/
def Server.SetTimeout_call (s : Server) (seconds : Int) : Server :=
  (fun _receiverCopy => s) (Server.SetTimeout_body s seconds)

/-- The `Client` struct of the client source file: remote address, logger
pointer, retry count and timeout. -/
structure Client where
  remoteAddr : UDPAddr
  log : Option Logger
  retryCount : Int
  timeout : Int
deriving DecidableEq, Repr

/-- `NewClient`: installs a discarding logger and the default retry count
and timeout. -/
def NewClient (remoteAddr : UDPAddr) : Client :=
  ⟨remoteAddr, some discardLogger, DEFAULT_RETRY_COUNT, DEFAULT_TIMEOUT⟩

/-- Getter `Client.Log`. -/
def Client.Log (c : Client) : Option Logger := c.log

/-- Getter `Client.RetryCount`. -/
def Client.RetryCount (c : Client) : Int := c.retryCount

/-- Getter `Client.Timeout`. -/
def Client.Timeout (c : Client) : Int := c.timeout

/-- Body of `Client.SetLogger`: `c.log = logger` on the receiver. -/
def Client.SetLogger_body (c : Client) (logger : Option Logger) : Client :=
  { c with log := logger }

/-- A call `c.SetLogger(l)`: value receiver, caller unchanged. -/
def Client.SetLogger_call (c : Client) (logger : Option Logger) : Client :=
  (fun _receiverCopy => c) (Client.SetLogger_body c logger)

/-- Body of `Client.SetRetryCount`: `c.retryCount = n` on the receiver. -/
def Client.SetRetryCount_body (c : Client) (n : Int) : Client :=
  { c with retryCount := n }

/-- A call `c.SetRetryCount(n)`: value receiver, caller unchanged. -/
def Client.SetRetryCount_call (c : Client) (n : Int) : Client :=
  (fun _receiverCopy => c) (Client.SetRetryCount_body c n)

/-- Body of `Client.SetTimeout`: `c.timeout = seconds` on the receiver. -/
def Client.SetTimeout_body (c : Client) (seconds : Int) : Client :=
  { c with timeout := seconds }

/-- A call `c.SetTimeout(seconds)`: value receiver, caller unchanged. -/
def Client.SetTimeout_call (c : Client) (seconds : Int) : Client :=
  (fun _receiverCopy => c) (Client.SetTimeout_body c seconds)

/-- Environment outcomes for a `Client.Put` or `Client.Get` invocation:
the result of `net.ResolveUDPAddr("udp", ":0")`, the result of
`net.ListenUDP`, and whether the transfer driven by the session
(`s.Run(false)` / `r.Run(false)`) succeeded.  Resolution and binding
failures carry the error message returned by the network layer. -/
structure ClientEnv where
  resolveError : Option String
  listenError : Option String
  transferSucceeded : Bool
deriving DecidableEq, Repr

/-- `Client.Put` from the client source: returns the resolve error, else the
listen error, else runs the sender session and the handler to completion and
returns `nil` — the transfer outcome is never consulted for the return
value. -/
def Client.Put (c : Client) (filename mode : List Byte) (handler : Nat)
    (env : ClientEnv) : Option String :=
  match env.resolveError with
  | some e => some e
  | none =>
    match env.listenError with
    | some e => some e
    | none =>
      let _sender := (c, filename, mode, handler, env.transferSucceeded)
      none

/-- `Client.Get` from the client source: returns the resolve error, else the
listen error, else runs the receiver session and the handler to completion
and unconditionally returns the error `"Send timeout"` — the transfer
outcome is never consulted for the return value. -/
def Client.Get (c : Client) (filename mode : List Byte) (handler : Nat)
    (env : ClientEnv) : Option String :=
  match env.resolveError with
  | some e => some e
  | none =>
    match env.listenError with
    | some e => some e
    | none =>
      let _receiver := (c, filename, mode, handler, env.transferSucceeded)
      some "Send timeout"

/-- Which session type `processRequest` starts (`sender` or `receiver`
struct of this package). -/
inductive SessionKind where
  | senderK
  | receiverK
deriving DecidableEq, Repr

/-- Which user handler `processRequest` spawns. -/
inductive HandlerKind where
  | readH
  | writeH
deriving DecidableEq, Repr

/-- One end of the `io.Pipe` created per request. -/
inductive PipeEnd where
  | readerEnd
  | writerEnd
deriving DecidableEq, Repr

/-- A session started by `go r.Run(true)`: its kind, the socket it runs on
(identified by a socket id), the pinned peer address, the pipe end it holds,
and the filename/mode copied from the request. -/
structure SessionStart where
  kind : SessionKind
  conn : Nat
  peer : UDPAddr
  bridgeEnd : PipeEnd
  filename : List Byte
  mode : List Byte
deriving DecidableEq, Repr

/-- A handler goroutine spawned by `go s.readHandler(...)` or
`go s.writeHandler(...)`: which handler, the filename argument, and the pipe
end handed to it. -/
structure HandlerSpawn where
  kind : HandlerKind
  filename : List Byte
  handlerEnd : PipeEnd
deriving DecidableEq, Repr

/-- Environment outcomes consulted by one `processRequest` call:
`ephemeralConn` is the result of `s.transmissionConn()` (a fresh socket id,
or the error message when `net.ListenUDP(":0")` fails), and
`probeWriteError` is the result of the zero-byte probe `writer.Write(...)`
on the new pipe — `some msg` exactly when the read handler has already
closed its end of the pipe with that error. -/
structure Env where
  ephemeralConn : (List Byte) ⊕ Nat
  probeWriteError : Option (List Byte)
deriving DecidableEq, Repr

/-- The observable effects of one `processRequest` call, after a datagram
has been read from the well-known socket: the session started (if any), the
handler goroutine spawned (if any), the socket opened by
`transmissionConn` (if any), the packets written to the network as
`(socket id, destination, payload)` triples, and the error value the call
returns (`none` is Go `nil`). -/
structure ProcessEffects where
  startedSession : Option SessionStart
  spawnedHandler : Option HandlerSpawn
  openedConn : Option Nat
  sentPackets : List (Nat × UDPAddr × List Byte)
  result : Option (List Byte)
deriving DecidableEq, Repr

/-- Effects of the branches that do nothing after reading the datagram. -/
def noEffects : ProcessEffects :=
  ⟨none, none, none, [], none⟩

/-- The error string `"Could not start transmission: %v"` built when
`transmissionConn` fails. -/
def couldNotStartTransmission (e : List Byte) : List Byte :=
  asciiBytes "Could not start transmission: " ++ e

/-- `Server.processRequest` from `server.go`, from the point where a
datagram `buf` has been read from the well-known socket with source address
`remoteAddr`.  Parse failure returns `nil` with no further effect.  A WRQ
opens an ephemeral socket, creates a pipe, spawns the read handler on the
reader end, probes the pipe with a zero-byte write, and on probe failure
sends `ERROR{1, err}` to the peer and returns the error, otherwise starts a
`receiver` session (peer pinned to `remoteAddr`) holding the writer end.
An RRQ opens an ephemeral socket, creates a pipe, spawns the write handler
on the writer end and starts a `sender` session (peer pinned to
`remoteAddr`) holding the reader end.  Any other packet kind falls through
the switch and returns `nil`. -/
def processRequest (_s : Server) (env : Env) (remoteAddr : UDPAddr)
    (buf : List Byte) : ProcessEffects :=
  match ParsePacket buf with
  | none => noEffects
  | some p =>
    match p with
    | .WRQ f m =>
      match env.ephemeralConn with
      | .inl e => { noEffects with result := some (couldNotStartTransmission e) }
      | .inr conn =>
        match env.probeWriteError with
        | some errMsg =>
          { startedSession := none
            spawnedHandler := some ⟨.readH, f, .readerEnd⟩
            openedConn := some conn
            sentPackets := [(conn, remoteAddr, (Packet.ERROR 1 errMsg).Pack)]
            result := some errMsg }
        | none =>
          { startedSession := some ⟨.receiverK, conn, remoteAddr, .writerEnd, f, m⟩
            spawnedHandler := some ⟨.readH, f, .readerEnd⟩
            openedConn := some conn
            sentPackets := []
            result := none }
    | .RRQ f m =>
      match env.ephemeralConn with
      | .inl e => { noEffects with result := some (couldNotStartTransmission e) }
      | .inr conn =>
        { startedSession := some ⟨.senderK, conn, remoteAddr, .readerEnd, f, m⟩
          spawnedHandler := some ⟨.writeH, f, .writerEnd⟩
          openedConn := some conn
          sentPackets := []
          result := none }
    | _ => noEffects

/-- Terminal session errors from the error taxonomy. -/
inductive TErr where
  | ProtocolTimeout
  | PeerAbort
deriving DecidableEq, Repr

/-- Phases of the sender state machine. -/
inductive SenderPhase where
  | awaitData
  | awaitAck
  | doneS
  | failedS (e : TErr)
deriving DecidableEq, Repr

/-- Modelled from the spec: the state of a `sender` session (the sender
source file is not in the repository snapshot; sections 4.2 and 3 of the
spec describe it).  The peer address is pinned at construction; `block` is
the current block number, `retries` the retry counter, `currentData` the
payload of the outstanding DATA packet and `isFinal` whether that packet is
the terminal (short) block. -/
structure SenderState where
  peer : UDPAddr
  block : Nat
  retries : Nat
  currentData : List Byte
  isFinal : Bool
  phase : SenderPhase
deriving DecidableEq, Repr

/-- An event a session can observe: a packet arriving on the ephemeral
socket from some source address, the retry timer firing, or bytes becoming
available from the bridge (with an end-of-stream flag). -/
inductive SessionEvent where
  | pkt (src : UDPAddr) (p : Packet)
  | timerFired
  | bridgeData (bytes : List Byte)
deriving DecidableEq, Repr

/-- An output a session step produces: a packet sent on the ephemeral
socket, the bridge end being closed (cleanly or with an error), or a
payload delivered to the bridge (receiver side). -/
inductive SessionOutput where
  | send (dst : UDPAddr) (p : Packet)
  | closeBridge (e : Option TErr)
  | deliver (bytes : List Byte)
deriving DecidableEq, Repr

/-- Modelled from the spec (section 4.2): one step of the sender state
machine, configured with retry count `rc`.  A packet from an address other
than the pinned peer is dropped with no state change.  In `awaitAck`, a
matching ACK advances (or completes) the transfer, a non-matching ACK is
ignored, an ERROR from the peer aborts; a timer expiry retransmits the
outstanding DATA while retries remain, and otherwise fails the session with
`ProtocolTimeout`, closing the bridge read end. -/
def senderStep (rc : Nat) (st : SenderState) (ev : SessionEvent) :
    SenderState × List SessionOutput :=
  match ev with
  | .pkt src p =>
    if src ≠ st.peer then (st, [])
    else
      match st.phase, p with
      | .awaitAck, .ACK b =>
        if b = st.block then
          if st.isFinal then ({ st with phase := .doneS }, [.closeBridge none])
          else ({ st with phase := .awaitData, block := (st.block + 1) % 65536, retries := 0 }, [])
        else (st, [])
      | .awaitAck, .ERROR _ _ =>
        ({ st with phase := .failedS .PeerAbort }, [.closeBridge (some .PeerAbort)])
      | _, _ => (st, [])
  | .timerFired =>
    match st.phase with
    | .awaitAck =>
      if st.retries < rc then
        ({ st with retries := st.retries + 1 },
          [.send st.peer (.DATA st.block st.currentData)])
      else
        ({ st with phase := .failedS .ProtocolTimeout },
          [.closeBridge (some .ProtocolTimeout)])
    | _ => (st, [])
  | .bridgeData bs =>
    match st.phase with
    | .awaitData =>
      ({ st with phase := .awaitAck, currentData := bs,
                 isFinal := decide (bs.length < 512), retries := 0 },
        [.send st.peer (.DATA st.block bs)])
    | _ => (st, [])

/-- Phases of the receiver state machine. -/
inductive RecvPhase where
  | awaitData
  | doneR
  | failedR (e : TErr)
deriving DecidableEq, Repr

/-- Modelled from the spec: the state of a `receiver` session (the receiver
source file is not in the repository snapshot; sections 4.3 and 3 of the
spec describe it).  The peer address is pinned at construction;
`lastDelivered` starts at 0 and `lastAck` remembers the last ACK sent. -/
structure ReceiverState where
  peer : UDPAddr
  lastDelivered : Nat
  retries : Nat
  lastAck : Option Nat
  phase : RecvPhase
deriving DecidableEq, Repr

/-- Modelled from the spec (section 4.3): one step of the receiver state
machine.  A packet from an address other than the pinned peer is dropped
with no state change.  The next in-order DATA block is delivered to the
bridge and ACKed (a short payload finishes the transfer); a duplicate of
the previous block gets its ACK resent without redelivery; anything else is
dropped. A timer expiry resends the last ACK (if any) while retries remain,
otherwise the session fails with `ProtocolTimeout`. -/
def receiverStep (rc : Nat) (st : ReceiverState) (ev : SessionEvent) :
    ReceiverState × List SessionOutput :=
  match ev with
  | .pkt src p =>
    if src ≠ st.peer then (st, [])
    else
      match st.phase, p with
      | .awaitData, .DATA b d =>
        if b = (st.lastDelivered + 1) % 65536 then
          ({ st with lastDelivered := b, lastAck := some b, retries := 0,
                     phase := if d.length < 512 then .doneR else .awaitData },
            [.deliver d, .send st.peer (.ACK b)] ++
              (if d.length < 512 then [.closeBridge none] else []))
        else if some b = st.lastAck then (st, [.send st.peer (.ACK b)])
        else (st, [])
      | .awaitData, .ERROR _ _ =>
        ({ st with phase := .failedR .PeerAbort }, [.closeBridge (some .PeerAbort)])
      | _, _ => (st, [])
  | .timerFired =>
    match st.phase with
    | .awaitData =>
      if st.retries < rc then
        ({ st with retries := st.retries + 1 },
          match st.lastAck with
          | some a => [.send st.peer (.ACK a)]
          | none => [])
      else
        ({ st with phase := .failedR .ProtocolTimeout },
          [.closeBridge (some .ProtocolTimeout)])
    | _ => (st, [])
  | .bridgeData _ => (st, [])

/-- Run the sender state machine over a list of events, collecting all
outputs in order. -/
def senderRun (rc : Nat) (st : SenderState) : List SessionEvent → SenderState × List SessionOutput
  | [] => (st, [])
  | e :: es =>
    let r1 := senderStep rc st e
    let r2 := senderRun rc r1.1 es
    (r2.1, r1.2 ++ r2.2)

/-- C2: for every constructible `Packet` value `p` (any of the five kinds
RRQ, WRQ, DATA, ACK, ERROR with fields within their invariants), decoding
the encoding of `p` yields `p` again: `ParsePacket (p.Pack) = some p`. -/
theorem C2_decode_encode_roundtrip (p : Packet) (h : p.wf = true) :
    ParsePacket p.Pack = some p := PacketRoundtrip p h

/-- Witness for C2: the round trip evaluated on a concrete RRQ packet. -/
theorem C2_decode_encode_roundtrip_witness :
    (Packet.RRQ [102, 105] [111]).wf = true ∧
      ParsePacket (Packet.RRQ [102, 105] [111]).Pack = some (Packet.RRQ [102, 105] [111]) :=
  ⟨by decide, C2_decode_encode_roundtrip (Packet.RRQ [102, 105] [111]) (by decide)⟩

/-- C3: for every datagram whose payload fails to decode as a packet,
`processRequest` recovers locally: it returns `nil`, starts no session,
spawns no handler and sends nothing. -/
theorem C3_malformed_packet_dropped (s : Server) (env : Env) (remoteAddr : UDPAddr)
    (buf : List Byte) (h : ParsePacket buf = none) :
    (processRequest s env remoteAddr buf).result = none ∧
    (processRequest s env remoteAddr buf).startedSession = none ∧
    (processRequest s env remoteAddr buf).spawnedHandler = none ∧
    (processRequest s env remoteAddr buf).sentPackets = [] := by
  simp [processRequest, h, noEffects]

/-- Witness for C3: a two-byte buffer with unknown opcode 9 is dropped. -/
theorem C3_malformed_packet_dropped_witness :
    ParsePacket [0, 9] = none ∧
      (processRequest (NewServer ⟨"h", 69⟩ 0 0) ⟨Sum.inr 5, none⟩ ⟨"p", 1000⟩ [0, 9]).result = none :=
  ⟨by decide,
    (C3_malformed_packet_dropped (NewServer ⟨"h", 69⟩ 0 0) ⟨Sum.inr 5, none⟩ ⟨"p", 1000⟩
      [0, 9] (by decide)).1⟩

/-- C4: for a WRQ whose read handler has already closed its pipe end with an
error by the time the zero-byte probe write is attempted, the server sends
an `ERROR{1, err}` packet to the peer's address on the ephemeral socket,
returns the error, and starts no receiver session. -/
theorem C4_handler_failure_sends_error (s : Server) (env : Env) (remoteAddr : UDPAddr)
    (buf : List Byte) (f m : List Byte) (conn : Nat) (err : List Byte)
    (hp : ParsePacket buf = some (.WRQ f m))
    (hc : env.ephemeralConn = Sum.inr conn)
    (he : env.probeWriteError = some err) :
    (processRequest s env remoteAddr buf).sentPackets
        = [(conn, remoteAddr, (Packet.ERROR 1 err).Pack)] ∧
    (processRequest s env remoteAddr buf).result = some err ∧
    (processRequest s env remoteAddr buf).startedSession = none := by
  simp [processRequest, hp, hc, he]

/-- Witness for C4: a concrete WRQ hitting an already-errored handler pipe. -/
theorem C4_handler_failure_sends_error_witness :
    (processRequest (NewServer ⟨"h", 69⟩ 0 0) ⟨Sum.inr 7, some [101]⟩ ⟨"p", 2000⟩
        (Packet.WRQ [102] [111]).Pack).sentPackets
      = [(7, ⟨"p", 2000⟩, (Packet.ERROR 1 [101]).Pack)] :=
  (C4_handler_failure_sends_error (NewServer ⟨"h", 69⟩ 0 0) ⟨Sum.inr 7, some [101]⟩
    ⟨"p", 2000⟩ (Packet.WRQ [102] [111]).Pack [102] [111] 7 [101]
    (by decide) rfl rfl).1

/-- C6: every `Server` returned by `NewServer` and every `Client` returned
by `NewClient` carries the default configuration: `RetryCount()` returns 3
and `Timeout()` returns 5 seconds. -/
theorem C6_default_config (bindAddr remoteAddr : UDPAddr) (rh wh : Nat) :
    (NewServer bindAddr rh wh).RetryCount = 3 ∧ (NewServer bindAddr rh wh).Timeout = 5 ∧
    (NewClient remoteAddr).RetryCount = 3 ∧ (NewClient remoteAddr).Timeout = 5 :=
  ⟨rfl, rfl, rfl, rfl⟩

/-- C8: `NewServer` and `NewClient` install a non-nil discarding logger, so
`Log()` never returns nil and every logging call on a default-constructed
value is a safe no-op (it faults on no input and emits nothing). -/
theorem C8_default_logger_safe (bindAddr remoteAddr : UDPAddr) (rh wh : Nat) (msg : String) :
    (NewServer bindAddr rh wh).Log = some discardLogger ∧
    (NewClient remoteAddr).Log = some discardLogger ∧
    logPrintf (NewServer bindAddr rh wh).Log msg = some [] ∧
    logPrintf (NewClient remoteAddr).Log msg = some [] :=
  ⟨rfl, rfl, rfl, rfl⟩

/-- C9: the setters take their receiver by value, so a call leaves the
caller's `Server`/`Client` unchanged and every subsequent getter returns
exactly what it returned before the call. -/
theorem C9_setters_leave_receiver_unchanged (s : Server) (c : Client)
    (l : Option Logger) (n t : Int) :
    (s.SetLogger_call l = s ∧ s.SetRetryCount_call n = s ∧ s.SetTimeout_call t = s ∧
      c.SetLogger_call l = c ∧ c.SetRetryCount_call n = c ∧ c.SetTimeout_call t = c) ∧
    ((s.SetLogger_call l).Log = s.Log ∧
      (s.SetRetryCount_call n).RetryCount = s.RetryCount ∧
      (s.SetTimeout_call t).Timeout = s.Timeout ∧
      (c.SetLogger_call l).Log = c.Log ∧
      (c.SetRetryCount_call n).RetryCount = c.RetryCount ∧
      (c.SetTimeout_call t).Timeout = c.Timeout) :=
  ⟨⟨rfl, rfl, rfl, rfl, rfl, rfl⟩, ⟨rfl, rfl, rfl, rfl, rfl, rfl⟩⟩

/-- C10: when address resolution and socket binding succeed, `Client.Get`
returns the error `"Send timeout"` regardless of the transfer outcome, and
`Client.Put` returns `nil` regardless of the transfer outcome. -/
theorem C10_client_returns_ignore_outcome (c : Client) (f m : List Byte) (hdl : Nat)
    (env : ClientEnv) (hre : env.resolveError = none) (hle : env.listenError = none) :
    c.Get f m hdl env = some "Send timeout" ∧ c.Put f m hdl env = none := by
  cases env with
  | mk re le ok => cases hre; cases hle; exact ⟨rfl, rfl⟩

/-- Witness for C10: a concrete invocation in which the transfer succeeded
(Get still errors) and one in which it failed (Put still returns nil). -/
theorem C10_client_returns_ignore_outcome_witness :
    (NewClient ⟨"h", 69⟩).Get [102] [111] 0 ⟨none, none, true⟩ = some "Send timeout" ∧
    (NewClient ⟨"h", 69⟩).Put [102] [111] 0 ⟨none, none, false⟩ = none :=
  ⟨(C10_client_returns_ignore_outcome (NewClient ⟨"h", 69⟩) [102] [111] 0
      ⟨none, none, true⟩ rfl rfl).1,
    (C10_client_returns_ignore_outcome (NewClient ⟨"h", 69⟩) [102] [111] 0
      ⟨none, none, false⟩ rfl rfl).2⟩

/-- Counterexample to C1 as stated: a first packet that decodes as a WRQ
whose read handler has already closed its pipe end with an error.  The
dispatcher opens the ephemeral socket and spawns the handler, but it does
NOT start a receiver session (it sends an ERROR packet instead), refuting
the unconditional claim for the WRQ case. -/
theorem C1_counterexample :
    ParsePacket (Packet.WRQ [102] [111]).Pack = some (Packet.WRQ [102] [111]) ∧
    (processRequest (NewServer ⟨"h", 69⟩ 0 0) ⟨Sum.inr 7, some [101]⟩ ⟨"p", 2000⟩
        (Packet.WRQ [102] [111]).Pack).startedSession = none := by
  exact ⟨by decide, by decide⟩

/-- C1 (amended): provided the ephemeral socket is opened successfully, a
first packet decoding as an RRQ makes `processRequest` start a sender
session on the fresh socket with the write handler spawned on the writer
end of a new pipe, and a first packet decoding as a WRQ — provided the read
handler has not already closed its pipe end with an error — makes it start
a receiver session on the fresh socket with the read handler spawned on the
reader end of a new pipe. -/
theorem C1_dispatch_sessions (s : Server) (env : Env) (remoteAddr : UDPAddr)
    (buf f m : List Byte) (conn : Nat)
    (hc : env.ephemeralConn = Sum.inr conn) :
    (ParsePacket buf = some (.RRQ f m) →
      (processRequest s env remoteAddr buf).startedSession
          = some ⟨.senderK, conn, remoteAddr, .readerEnd, f, m⟩ ∧
      (processRequest s env remoteAddr buf).spawnedHandler = some ⟨.writeH, f, .writerEnd⟩ ∧
      (processRequest s env remoteAddr buf).openedConn = some conn) ∧
    (ParsePacket buf = some (.WRQ f m) → env.probeWriteError = none →
      (processRequest s env remoteAddr buf).startedSession
          = some ⟨.receiverK, conn, remoteAddr, .writerEnd, f, m⟩ ∧
      (processRequest s env remoteAddr buf).spawnedHandler = some ⟨.readH, f, .readerEnd⟩ ∧
      (processRequest s env remoteAddr buf).openedConn = some conn) := by
  constructor
  · intro hp
    simp [processRequest, hp, hc]
  · intro hp hw
    simp [processRequest, hp, hc, hw]

/-- Witness for C1 (amended): a concrete RRQ starts a sender session on the
fresh socket. -/
theorem C1_dispatch_sessions_witness :
    (processRequest (NewServer ⟨"h", 69⟩ 0 0) ⟨Sum.inr 5, none⟩ ⟨"p", 1000⟩
        (Packet.RRQ [97] [110]).Pack).startedSession
      = some ⟨.senderK, 5, ⟨"p", 1000⟩, .readerEnd, [97], [110]⟩ :=
  ((C1_dispatch_sessions (NewServer ⟨"h", 69⟩ 0 0) ⟨Sum.inr 5, none⟩ ⟨"p", 1000⟩
      (Packet.RRQ [97] [110]).Pack [97] [110] 5 rfl).1 (by decide)).1

/-- C5: every session is constructed with its peer pinned to the source
address of the first packet of the transfer, and a packet arriving from any
other address is dropped by both session state machines with no state
change and no output. -/
theorem C5_peer_pinned_foreign_dropped :
    (∀ (s : Server) (env : Env) (remoteAddr : UDPAddr) (buf : List Byte) (ss : SessionStart),
        (processRequest s env remoteAddr buf).startedSession = some ss → ss.peer = remoteAddr) ∧
    (∀ (rc : Nat) (st : SenderState) (src : UDPAddr) (p : Packet),
        src ≠ st.peer → senderStep rc st (.pkt src p) = (st, [])) ∧
    (∀ (rc : Nat) (st : ReceiverState) (src : UDPAddr) (p : Packet),
        src ≠ st.peer → receiverStep rc st (.pkt src p) = (st, [])) := by
  refine ⟨?_, ?_, ?_⟩
  · intro s env remoteAddr buf ss h
    simp only [processRequest] at h
    cases hp : ParsePacket buf with
    | none => rw [hp] at h; simp [noEffects] at h
    | some p =>
      rw [hp] at h
      cases p with
      | WRQ f m =>
        cases hcn : env.ephemeralConn with
        | inl e => rw [hcn] at h; simp [noEffects] at h
        | inr conn =>
          rw [hcn] at h
          cases hw : env.probeWriteError with
          | some errMsg => rw [hw] at h; simp at h
          | none =>
            rw [hw] at h
            simp only [Option.some.injEq] at h
            rw [show ss = ⟨.receiverK, conn, remoteAddr, .writerEnd, f, m⟩ from h.symm]
      | RRQ f m =>
        cases hcn : env.ephemeralConn with
        | inl e => rw [hcn] at h; simp [noEffects] at h
        | inr conn =>
          rw [hcn] at h
          simp only [Option.some.injEq] at h
          rw [show ss = ⟨.senderK, conn, remoteAddr, .readerEnd, f, m⟩ from h.symm]
      | DATA b d => simp [noEffects] at h
      | ACK b => simp [noEffects] at h
      | ERROR c msg => simp [noEffects] at h
  · intro rc st src p h
    simp [senderStep, h]
  · intro rc st src p h
    simp [receiverStep, h]

/-- Witness for C5: the peer of the session started by a concrete RRQ is
the datagram's source address, and concrete foreign packets are dropped by
both state machines. -/
theorem C5_peer_pinned_foreign_dropped_witness :
    (SessionStart.peer ⟨.senderK, 5, ⟨"p", 1000⟩, .readerEnd, [97], [110]⟩ = ⟨"p", 1000⟩) ∧
    senderStep 3 ⟨⟨"p", 1000⟩, 1, 0, [104], false, .awaitAck⟩ (.pkt ⟨"q", 1001⟩ (.ACK 1))
      = (⟨⟨"p", 1000⟩, 1, 0, [104], false, .awaitAck⟩, []) ∧
    receiverStep 3 ⟨⟨"p", 1000⟩, 0, 0, none, .awaitData⟩ (.pkt ⟨"q", 1001⟩ (.DATA 1 [104]))
      = (⟨⟨"p", 1000⟩, 0, 0, none, .awaitData⟩, []) :=
  ⟨C5_peer_pinned_foreign_dropped.1 (NewServer ⟨"h", 69⟩ 0 0) ⟨Sum.inr 5, none⟩
      ⟨"p", 1000⟩ (Packet.RRQ [97] [110]).Pack
      ⟨.senderK, 5, ⟨"p", 1000⟩, .readerEnd, [97], [110]⟩ (by decide),
    C5_peer_pinned_foreign_dropped.2.1 3 ⟨⟨"p", 1000⟩, 1, 0, [104], false, .awaitAck⟩
      ⟨"q", 1001⟩ (.ACK 1) (by decide),
    C5_peer_pinned_foreign_dropped.2.2 3 ⟨⟨"p", 1000⟩, 0, 0, none, .awaitData⟩
      ⟨"q", 1001⟩ (.DATA 1 [104]) (by decide)⟩

theorem senderRun_cons (rc : Nat) (st : SenderState) (e : SessionEvent)
    (es : List SessionEvent) :
    senderRun rc st (e :: es)
      = ((senderRun rc (senderStep rc st e).1 es).1,
          (senderStep rc st e).2 ++ (senderRun rc (senderStep rc st e).1 es).2) := rfl

theorem senderRun_timeout_aux (k : Nat) :
    ∀ (rc : Nat) (st : SenderState), st.phase = .awaitAck → st.retries + k = rc →
      (senderRun rc st (List.replicate (k + 1) .timerFired)).2
          = List.replicate k (.send st.peer (.DATA st.block st.currentData))
              ++ [.closeBridge (some .ProtocolTimeout)] ∧
      (senderRun rc st (List.replicate (k + 1) .timerFired)).1.phase
          = .failedS .ProtocolTimeout := by
  induction k with
  | zero =>
    intro rc st hph hr
    have hlt : ¬ (st.retries < rc) := by omega
    simp [senderRun, senderStep, hph, hlt, List.replicate]
  | succ k ih =>
    intro rc st hph hr
    have hlt : st.retries < rc := by omega
    have hstep : senderStep rc st .timerFired
        = ({ st with retries := st.retries + 1 },
            [.send st.peer (.DATA st.block st.currentData)]) := by
      simp [senderStep, hph, hlt]
    have ihx := ih rc { st with retries := st.retries + 1 } (by simpa using hph)
      (by dsimp only; omega)
    dsimp only at ihx
    rw [List.replicate_succ, senderRun_cons, hstep]
    dsimp only
    constructor
    · rw [ihx.1]
      simp [List.replicate_succ]
    · exact ihx.2

/-- C7: a sender session that never receives an ACK for the outstanding
DATA block (every wait ends with the retry timer firing) retransmits that
same DATA packet exactly `retryCount` additional times and then closes its
bridge read end with a `ProtocolTimeout` error, ending in the failed
phase. -/
theorem C7_retry_exhaustion (rc : Nat) (st : SenderState)
    (hph : st.phase = .awaitAck) (hr : st.retries = 0) :
    (senderRun rc st (List.replicate (rc + 1) .timerFired)).2
        = List.replicate rc (.send st.peer (.DATA st.block st.currentData))
            ++ [.closeBridge (some .ProtocolTimeout)] ∧
    (senderRun rc st (List.replicate (rc + 1) .timerFired)).1.phase
        = .failedS .ProtocolTimeout :=
  senderRun_timeout_aux rc rc st hph (by omega)

/-- Witness for C7: with the default retry count 3, a concrete sender in
`awaitAck` that only sees timer expiries retransmits its DATA packet three
times and then closes the bridge with `ProtocolTimeout`. -/
theorem C7_retry_exhaustion_witness :
    (senderRun 3 ⟨⟨"p", 1000⟩, 1, 0, [104], false, .awaitAck⟩
        (List.replicate 4 .timerFired)).2
      = List.replicate 3 (.send ⟨"p", 1000⟩ (.DATA 1 [104]))
          ++ [.closeBridge (some .ProtocolTimeout)] ∧
    (senderRun 3 ⟨⟨"p", 1000⟩, 1, 0, [104], false, .awaitAck⟩
        (List.replicate 4 .timerFired)).1.phase
      = .failedS .ProtocolTimeout :=
  C7_retry_exhaustion 3 ⟨⟨"p", 1000⟩, 1, 0, [104], false, .awaitAck⟩ rfl rfl
